import Mathlib

/-!
Shallow embedding of `src/lssdp.c` (SSDP discovery core).

C strings are modelled as `List Char` (the bytes of the buffer; a possible
interior NUL is the character `'\x00'`).  C `int` is modelled as `Int`,
`size_t` as `Nat`.  Fixed-size C buffers filled by `snprintf(buf, N, ...)`
are modelled by truncating the rendered text to `N - 1` characters, which is
exactly what `snprintf` stores.  OS calls (socket, ioctl, inet_ntop, bind,
sendto, ...) are modelled by explicit oracle inputs saying whether each call
succeeds, and by returning the observable trace (stored lists, attempted
sends, opened-socket counts) next to the C return value.
-/

/-- `strlen`: number of characters before the first NUL byte. -/
def cstrlen : List Char → Nat
  | [] => 0
  | c :: r => if c = '\x00' then 0 else cstrlen r + 1

/-- A byte list containing no NUL byte (so `strlen` sees all of it). -/
def NoNul (l : List Char) : Prop := ∀ c ∈ l, c ≠ '\x00'

/-- A header-field value that survives a round trip: no NUL (string-safe),
no CR and no LF (cannot break the CRLF line structure of a message). -/
def CleanList (l : List Char) : Prop :=
  ∀ c ∈ l, c ≠ '\x00' ∧ c ≠ '\r' ∧ c ≠ '\n'

instance (l : List Char) : Decidable (NoNul l) :=
  inferInstanceAs (Decidable (∀ c ∈ l, c ≠ '\x00'))

instance (l : List Char) : Decidable (CleanList l) :=
  inferInstanceAs (Decidable (∀ c ∈ l, c ≠ '\x00' ∧ c ≠ '\r' ∧ c ≠ '\n'))

/-- Decimal digit character, used to model `printf`-style `%d` rendering. -/
def digitChar : Nat → Char
  | 0 => '0' | 1 => '1' | 2 => '2' | 3 => '3' | 4 => '4'
  | 5 => '5' | 6 => '6' | 7 => '7' | 8 => '8' | _ => '9'

/-- Fuelled accumulator loop producing the decimal digits of `n`. -/
def natReprAux : Nat → Nat → List Char → List Char
  | 0, _, acc => acc
  | fuel + 1, n, acc =>
    if n < 10 then digitChar n :: acc
    else natReprAux fuel (n / 10) (digitChar (n % 10) :: acc)

/-- Decimal rendering of a natural number (`printf` `%u`-style). -/
def natRepr (n : Nat) : List Char := natReprAux (n + 1) n []

/-- Decimal rendering of a C `int` (`printf` `%d`-style). -/
def intRepr (i : Int) : List Char :=
  if i < 0 then '-' :: natRepr (-i).toNat else natRepr i.toNat

/- SSDP method header lines (src/lssdp.c:41-43). -/

def LSSDP_MSEARCH_HEADER : List Char := "M-SEARCH * HTTP/1.1\r\n".toList

def LSSDP_NOTIFY_HEADER : List Char := "NOTIFY * HTTP/1.1\r\n".toList

def LSSDP_RESPONSE_HEADER : List Char := "HTTP/1.1 200 OK\r\n".toList

/-- UDA v1.1 boilerplate block (src/lssdp.c:45-49), a single C string. -/
def LSSDP_UDA_v1_1 : List Char :=
  ("OPT:\"http://schemas.upnp.org/upnp/1/0/\"; ns=01\r\n"
    ++ "01-NLS:1\r\n"
    ++ "BOOTID.UPNP.ORG:1\r\n"
    ++ "CONFIGID.UPNP.ORG:1337\r\n").toList

/-- Multicast group address (src/lssdp.c:20). -/
def LSSDP_MULTICAST_ADDR : List Char := "239.255.255.250".toList

/-- `struct lssdp_packet` (src/lssdp.c:23-33).  Each fixed-size char array
field is modelled as the `List Char` it holds. -/
structure lssdp_packet where
  method : List Char
  st : List Char
  usn : List Char
  location : List Char
  sm_id : List Char
  device_type : List Char
  update_time : Nat
deriving DecidableEq

/-- A zero-initialised `lssdp_packet`. -/
def emptyPacket : lssdp_packet := ⟨[], [], [], [], [], [], 0⟩

/-- `get_colon_index` (src/lssdp.c:482-490) restricted to a line slice:
index of the first `':'` of `content` at or after index 1 (the source is
always called with `start + 1`), `none` when there is none (`-1` in C). -/
def colonSearch : List Char → Option Nat
  | [] => none
  | c :: rest => if c = ':' then some 0 else (colonSearch rest).map (· + 1)

/-- First colon of a field line at or after index 1 (call site
`get_colon_index(data, start + 1, end)`, src/lssdp.c:465). -/
def get_colon_index (content : List Char) : Option Nat :=
  (colonSearch (content.drop 1)).map (· + 1)

/-- Outcome of `parse_field_line` (src/lssdp.c:457-480).  The C function
returns `-1` from three distinct sites (line starts with a colon / no colon
found / empty value) and `0` otherwise; the constructors record which site,
matching the spec's diagnostic names (MalformedLine covers the first two,
EmptyValue the third). -/
inductive FieldLineResult where
  | ok : FieldLineResult
  | malformedLine : FieldLineResult
  | emptyValue : FieldLineResult
deriving DecidableEq

/-- `parse_field_line` (src/lssdp.c:457-480) on the line slice
`data[start..end]` (both line delimiters excluded), returning which exit the
C function takes.  `content.getD 0` is `data[start]`. -/
def parse_field_line (content : List Char) : FieldLineResult :=
  if content.getD 0 '\x00' = ':' then .malformedLine
  else
    match get_colon_index content with
    | none => .malformedLine
    | some colon =>
      if colon + 1 = content.length then .emptyValue else .ok

/-- Modelled from the spec: the field/value capture left `TODO` at
src/lssdp.c:477 ("get field, field_len, value, value_len").  Spec section
4.4 step 3: the field name (bytes before the colon) is matched
case-insensitively against the known set {ST, USN, LOCATION, SM_ID,
DEV_TYPE} and the value (bytes after the colon) is stored into the
corresponding packet attribute.  The spec's overflow mapping for
unrecognised names has no storage in the source `lssdp_packet` struct, so an
unrecognised name leaves the packet unchanged (no claim depends on it). -/
def storeField (p : lssdp_packet) (name value : List Char) : lssdp_packet :=
  if name.map Char.toUpper = "ST".toList then { p with st := value }
  else if name.map Char.toUpper = "USN".toList then { p with usn := value }
  else if name.map Char.toUpper = "LOCATION".toList then { p with location := value }
  else if name.map Char.toUpper = "SM_ID".toList then { p with sm_id := value }
  else if name.map Char.toUpper = "DEV_TYPE".toList then { p with device_type := value }
  else p

/-- `parse_field_line` with the spec-modelled storage step: same branch
structure as `parse_field_line`, and on the `ok` path the name/value pair is
stored through `storeField`. -/
def parse_field_line_full (p : lssdp_packet) (content : List Char) : lssdp_packet :=
  if content.getD 0 '\x00' = ':' then p
  else
    match get_colon_index content with
    | none => p
    | some colon =>
      if colon + 1 = content.length then p
      else storeField p (content.take colon) (content.drop (colon + 1))

/-- The line-segmentation loop of `lssdp_packet_parser`
(src/lssdp.c:446-452) in structural form.  The C loop scans an index `i`
and, at every position where `data[i] == '\n'`, `data[i-1] == '\r'` and
`i - 1 > start` (the line has at least one content byte), emits the slice
`data[start .. i-2]` and restarts at `i + 1`.  Here `acc` is the content
accumulated since `start`; a CRLF with empty `acc` fails the `i - 1 > start`
test and is absorbed into the current line, exactly as in C (after the C
loop passes such a pair, no terminator can fire inside it since `'\n'` never
matches the `'\r'` side).  A trailing remainder without CRLF is dropped. -/
def segLoop (acc : List Char) : List Char → List (List Char)
  | [] => []
  | [_] => []
  | c :: nxt :: rest =>
    if c = '\r' ∧ nxt = '\n' then
      if acc = [] then segLoop (acc ++ [c, nxt]) rest
      else acc :: segLoop [] rest
    else segLoop (acc ++ [c]) (nxt :: rest)

/-- Field-line scan of `lssdp_packet_parser` (src/lssdp.c:445-452): every
delimited line slice is handed to the field-line parser in order; the
per-line return value is ignored by the C caller. -/
def scanFields (d : List Char) (start : Nat) (p : lssdp_packet) : lssdp_packet :=
  (segLoop [] (d.drop start)).foldl parse_field_line_full p

/-- `lssdp_packet_parser` (src/lssdp.c:415-455).  `data` is the byte buffer
reachable from the pointer, `data_len` the declared length.  The `data ==
NULL` and `packet == NULL` guards have no counterpart (both arguments are
total values here).  Returns the C result and the final packet; on every
error path the packet argument is returned untouched. -/
def lssdp_packet_parse (data : List Char) (data_len : Nat) (packet : lssdp_packet) :
    Int × lssdp_packet :=
  if data_len ≠ cstrlen data then (-1, packet)
  else
    let d := data.take data_len
    if LSSDP_MSEARCH_HEADER.length < data_len ∧ LSSDP_MSEARCH_HEADER.isPrefixOf data = true then
      (0, scanFields d LSSDP_MSEARCH_HEADER.length { packet with method := "M-SEARCH".toList })
    else if LSSDP_NOTIFY_HEADER.length < data_len ∧ LSSDP_NOTIFY_HEADER.isPrefixOf data = true then
      (0, scanFields d LSSDP_NOTIFY_HEADER.length { packet with method := "NOTIFY".toList })
    else if LSSDP_RESPONSE_HEADER.length < data_len ∧ LSSDP_RESPONSE_HEADER.isPrefixOf data = true then
      (0, scanFields d LSSDP_RESPONSE_HEADER.length { packet with method := "RESPONSE".toList })
    else (-1, packet)

/-- `struct lssdp_interface`: a name (char array, modelled as its content)
and the four IPv4 octets `ip[0..3]` stored as C ints. -/
structure lssdp_interface where
  name : List Char
  ip0 : Int
  ip1 : Int
  ip2 : Int
  ip3 : Int
deriving DecidableEq

/-- Location of `lssdp->header.location`: optional host override, port and
URI suffix (spec: `locationHost`, `locationPort`, `locationUriSuffix`). -/
structure lssdp_location where
  host : List Char
  port : Int
  uri : List Char

/-- `lssdp->header`: the caller-supplied header configuration. -/
structure lssdp_header where
  st : List Char
  usn : List Char
  sm_id : List Char
  device_type : List Char
  location : lssdp_location

/-- LOCATION suffix built at src/lssdp.c:276-284: `":%d"` when
`0 < port <= 0xFFFF`, then `"/%s"` when the URI is non-empty. -/
def locationSuffix (loc : lssdp_location) : List Char :=
  (if 0 < loc.port ∧ loc.port ≤ 65535 then ':' :: intRepr loc.port else [])
    ++ (if 0 < loc.uri.length then '/' :: loc.uri else [])

/-- LOCATION value built per interface at src/lssdp.c:294-307: the host
override when non-empty, else the interface IP in dotted-decimal form, each
followed by the suffix. -/
def buildLocation (loc : lssdp_location) (iface : lssdp_interface) : List Char :=
  if 0 < loc.host.length then loc.host ++ locationSuffix loc
  else
    intRepr iface.ip0 ++ '.' :: intRepr iface.ip1 ++ '.' :: intRepr iface.ip2
      ++ '.' :: intRepr iface.ip3 ++ locationSuffix loc

/-- The NOTIFY text rendered by the format string at src/lssdp.c:311-331,
before the `snprintf` buffer bound is applied. -/
def buildNotifyFull (hdr : lssdp_header) (ssdpPort : Int) (iface : lssdp_interface) :
    List Char :=
  LSSDP_NOTIFY_HEADER
    ++ "HOST:".toList ++ LSSDP_MULTICAST_ADDR ++ ':' :: intRepr ssdpPort ++ "\r\n".toList
    ++ "CACHE-CONTROL:max-age=120\r\n".toList
    ++ "ST:".toList ++ hdr.st ++ "\r\n".toList
    ++ "USN:".toList ++ hdr.usn ++ "\r\n".toList
    ++ "LOCATION:".toList ++ buildLocation hdr.location iface ++ "\r\n".toList
    ++ "SM_ID:".toList ++ hdr.sm_id ++ "\r\n".toList
    ++ "DEV_TYPE:".toList ++ hdr.device_type ++ "\r\n".toList
    ++ LSSDP_UDA_v1_1
    ++ "NTS:ssdp:alive\r\n".toList
    ++ "\r\n".toList

/-- The NOTIFY message as stored by `snprintf(notify, 1024, ...)`
(src/lssdp.c:310-331): at most 1023 characters, silently truncated. -/
def buildNotifyRendered (hdr : lssdp_header) (ssdpPort : Int) (iface : lssdp_interface) :
    List Char :=
  (buildNotifyFull hdr ssdpPort iface).take 1023

/-- The M-SEARCH text rendered by the format string at src/lssdp.c:245-255,
before the `snprintf` buffer bound is applied. -/
def buildMsearchFull (st : List Char) (ssdpPort : Int) : List Char :=
  LSSDP_MSEARCH_HEADER
    ++ "HOST:".toList ++ LSSDP_MULTICAST_ADDR ++ ':' :: intRepr ssdpPort ++ "\r\n".toList
    ++ "MAN:\"ssdp:discover\"\r\n".toList
    ++ "ST:".toList ++ st ++ "\r\n".toList
    ++ "MX:1\r\n".toList
    ++ "\r\n".toList

/-- The M-SEARCH message as stored by `snprintf(msearch, 1024, ...)`
(src/lssdp.c:244-255): at most 1023 characters, silently truncated. -/
def buildMsearchRendered (st : List Char) (ssdpPort : Int) : List Char :=
  (buildMsearchFull st ssdpPort).take 1023

/- Network interface refresh (src/lssdp.c:73-147). -/

/-- `AF_INET` (IPv4 address family). -/
def AF_INET : Nat := 2

/-- One `struct ifreq` record produced by the `SIOCGIFCONF` scan: its
address family, its name, and the result of `inet_ntop` on its address
(`none` models `inet_ntop` failing for that entry). -/
structure IfEntry where
  family : Nat
  name : List Char
  addr : Option (List Char)
deriving DecidableEq

/-- `atoi`: skip leading spaces, optional sign, then leading digits. -/
def atoiDigits : List Char → Nat → Nat
  | [], acc => acc
  | c :: r, acc => if c.isDigit then atoiDigits r (acc * 10 + (c.toNat - 48)) else acc

/-- `atoi` on a token. -/
def atoiM (s : List Char) : Int :=
  match s.dropWhile (· = ' ') with
  | '-' :: r => -(atoiDigits r 0 : Int)
  | '+' :: r => (atoiDigits r 0 : Int)
  | r => (atoiDigits r 0 : Int)

/-- The `strtok_r`/`atoi` loop at src/lssdp.c:132-136: split the dotted IP
string and convert the first four tokens.  (`strtok_r` returning NULL for a
missing token makes the C `atoi` call undefined; the model totalises a
missing token to the empty string.) -/
def parseIp (s : List Char) : Int × Int × Int × Int :=
  let t := s.splitOn '.'
  (atoiM (t.getD 0 []), atoiM (t.getD 1 []), atoiM (t.getD 2 []), atoiM (t.getD 3 []))

/-- Storing one scanned entry (src/lssdp.c:127-137): the name is copied with
`snprintf(dst, LSSDP_INTERFACE_NAME_LEN - 1, "%s", ...)`, which keeps at
most `LSSDP_INTERFACE_NAME_LEN - 2` characters; the IP string is split into
the four octet ints.  `NL` is `LSSDP_INTERFACE_NAME_LEN`. -/
def storeIf (NL : Nat) (e : IfEntry) (ip : List Char) : lssdp_interface :=
  let q := parseIp ip
  ⟨e.name.take (NL - 2), q.1, q.2.1, q.2.2.1, q.2.2.2⟩

/-- The scan loop of `lssdp_get_network_interface` (src/lssdp.c:106-141).
`M` is `LSSDP_INTERFACE_LIST_SIZE`, `acc` the entries stored so far, `num`
the running count of IPv4 entries seen, `w` the number of truncation
warnings logged.  A non-IPv4 entry is skipped; an `inet_ntop` failure
returns `-1` immediately (`goto end`), keeping whatever was stored; an IPv4
entry beyond the capacity logs a warning and is not stored. -/
def refreshGo (M NL : Nat) :
    List IfEntry → List lssdp_interface → Nat → Nat → Int × List lssdp_interface × Nat
  | [], acc, _, w => (0, acc, w)
  | e :: rest, acc, num, w =>
    if e.family ≠ AF_INET then refreshGo M NL rest acc num w
    else
      match e.addr with
      | none => (-1, acc, w)
      | some ip =>
        if M ≤ num then refreshGo M NL rest acc (num + 1) (w + 1)
        else refreshGo M NL rest (acc ++ [storeIf NL e ip]) (num + 1) w

/-- `lssdp_get_network_interface` (src/lssdp.c:73-147).  The interface list
is `memset` to zero before anything else (modelled by starting from `[]`);
`socketOk` and `ioctlOk` say whether `socket()` and `ioctl(SIOCGIFCONF)`
succeed; `entries` is the interface table the ioctl reports.  Returns the C
result, the stored interface list, and the truncation-warning count. -/
def lssdp_get_network_interface (M NL : Nat) (socketOk ioctlOk : Bool)
    (entries : List IfEntry) : Int × List lssdp_interface × Nat :=
  if socketOk = false then (-1, [], 0)
  else if ioctlOk = false then (-1, [], 0)
  else refreshGo M NL entries [] 0 0

/- Multicast send (src/lssdp.c:341-413) and the per-interface send loops
(src/lssdp.c:257-267 and 286-335). -/

/-- Success/failure of each OS call made by `send_multicast_data`, in call
order: `socket`, `bind`, `setsockopt(IP_MULTICAST_LOOP)`, `inet_aton`,
`sendto`. -/
structure SendEnv where
  socketOk : Bool
  bindOk : Bool
  sockoptOk : Bool
  atonOk : Bool
  sendOk : Bool
deriving DecidableEq

/-- `send_multicast_data` (src/lssdp.c:341-413).  `data = none` models a
NULL pointer.  Returns the C result together with the number of sockets the
call created (every created socket is closed at `end`, so this also bounds
what could leak).  All four argument checks precede the `socket()` call. -/
def send_multicast_data (data : Option (List Char)) (iface : lssdp_interface)
    (ssdp_port : Int) (env : SendEnv) : Int × Nat :=
  match data with
  | none => (-1, 0)
  | some d =>
    if d.length = 0 then (-1, 0)
    else if iface.name.length = 0 then (-1, 0)
    else if ssdp_port < 0 ∨ 65535 < ssdp_port then (-1, 0)
    else if env.socketOk = false then (-1, 0)
    else if env.bindOk = false then (-1, 1)
    else if env.sockoptOk = false then (-1, 1)
    else if env.atonOk = false then (-1, 1)
    else if env.sendOk = false then (-1, 1)
    else (0, 1)

/-- The send loop shared by `lssdp_send_msearch` (src/lssdp.c:257-267) and
`lssdp_send_notify` (src/lssdp.c:286-335): walk the interface array, stop at
the first entry with an empty name, call `send_multicast_data` on each
earlier entry and ignore its result.  `send i` abstracts
`send_multicast_data(message_i, i, port)`; the returned list is the trace of
calls made with their results. -/
def sendAttempts : List lssdp_interface → (lssdp_interface → Int) →
    List (lssdp_interface × Int)
  | [], _ => []
  | i :: rest, send =>
    if i.name = [] then [] else (i, send i) :: sendAttempts rest send

/-- Return value and send trace of the loop: both C functions return `0`
unconditionally after the loop (src/lssdp.c:267, 335). -/
def sendLoopModel (interfaces : List lssdp_interface)
    (send : lssdp_interface → Int) : Int × List (lssdp_interface × Int) :=
  (0, sendAttempts interfaces send)

/- Supporting lemmas. -/

/-- A NUL byte at position `i` bounds `strlen` by `i`. -/
lemma cstrlen_le_of_getD (data : List Char) (i : Nat) (h : data.getD i 'A' = '\x00') :
    cstrlen data ≤ i := by
  induction data generalizing i with
  | nil => simp [List.getD] at h
  | cons c r ih =>
    cases i with
    | zero =>
      have hc : c = '\x00' := by simpa [List.getD] using h
      simp [cstrlen, hc]
    | succ j =>
      have hj : r.getD j 'A' = '\x00' := by simpa [List.getD] using h
      by_cases hc : c = '\x00'
      · simp [cstrlen, hc]
      · have := ih j hj
        simp [cstrlen, hc]
        omega

/-- The send trace covers exactly the interfaces before the first
empty-named entry, in order, with the oracle's result for each. -/
lemma sendAttempts_eq (interfaces : List lssdp_interface)
    (send : lssdp_interface → Int) :
    sendAttempts interfaces send =
      (interfaces.takeWhile (fun i => !i.name.isEmpty)).map (fun i => (i, send i)) := by
  induction interfaces with
  | nil => rfl
  | cons i rest ih =>
    by_cases h : i.name = []
    · simp [sendAttempts, h, List.takeWhile_cons]
    · simp [sendAttempts, h, List.takeWhile_cons, ih, List.isEmpty_iff]

/- Claim theorems. -/

/-- C7: `buildMsearch("urn:example:service:1", 1900)` produces exactly the
specified byte string. -/
theorem c7_msearch_exact_bytes :
    buildMsearchRendered ("urn:example:service:1".toList) 1900 =
      ("M-SEARCH * HTTP/1.1\r\nHOST:239.255.255.250:1900\r\nMAN:\"ssdp:discover\"\r\nST:urn:example:service:1\r\nMX:1\r\n\r\n").toList := by
  decide

/-- C10: a datagram whose declared length differs from its C-string length
(in particular one with an interior NUL byte before `data_len`) is rejected
with `-1` before method classification, the packet left untouched. -/
theorem c10_length_mismatch_rejected (data : List Char) (data_len : Nat) (p : lssdp_packet)
    (h : data_len ≠ cstrlen data ∨ ∃ i, i < data_len ∧ data.getD i 'A' = '\x00') :
    lssdp_packet_parse data data_len p = (-1, p) := by
  have hne : data_len ≠ cstrlen data := by
    rcases h with h | ⟨i, hi, hz⟩
    · exact h
    · have := cstrlen_le_of_getD data i hz
      omega
  unfold lssdp_packet_parse
  rw [if_pos hne]

/-- C10 witness: a concrete datagram with an interior NUL. -/
theorem c10_length_mismatch_rejected_witness :
    lssdp_packet_parse (['N', '\x00', 'T']) 3 emptyPacket = (-1, emptyPacket) :=
  c10_length_mismatch_rejected _ 3 _ (Or.inr ⟨1, by decide, by decide⟩)

/-- C9: `send_multicast_data` with an empty interface name fails with `-1`
before the `socket()` call, for every payload, port and OS behaviour: no
socket is created (and hence none can leak). -/
theorem c9_empty_name_no_socket (data : Option (List Char)) (iface : lssdp_interface)
    (ssdp_port : Int) (env : SendEnv) (h : iface.name = []) :
    send_multicast_data data iface ssdp_port env = (-1, 0) := by
  cases data with
  | none => rfl
  | some d =>
    by_cases hd : d.length = 0
    · simp [send_multicast_data, hd]
    · simp [send_multicast_data, hd, h]

/-- C9 witness: a concrete call with an empty interface name. -/
theorem c9_empty_name_no_socket_witness :
    send_multicast_data (some ("NOTIFY".toList)) ⟨[], 0, 0, 0, 0⟩ 1900
      ⟨true, true, true, true, true⟩ = (-1, 0) :=
  c9_empty_name_no_socket _ _ _ _ rfl

/-- C5 (amended): the send loop attempts every interface up to the first
empty-named slot in order, a failing send does not stop the loop (the trace
is a pure map of the oracle over that span, independent of the results),
and the C function's return value is the single constant `0`, not the list
of per-interface outcomes. -/
theorem c5_send_loop_semantics (interfaces : List lssdp_interface)
    (send : lssdp_interface → Int) :
    (sendLoopModel interfaces send).1 = 0 ∧
    (sendLoopModel interfaces send).2 =
      (interfaces.takeWhile (fun i => !i.name.isEmpty)).map (fun i => (i, send i)) :=
  ⟨rfl, sendAttempts_eq interfaces send⟩

/-- A concrete interface entry used in counterexamples. -/
def ethIface : lssdp_interface := ⟨"eth0".toList, 192, 168, 1, 2⟩

/-- C5 counterexample: with one interface whose send fails, the operation
still returns plain `0` — the same value as when the send succeeds — so the
return value is a single pass/fail-style int that does not carry the
per-interface outcomes, contrary to the claim. -/
theorem c5_counterexample :
    (sendLoopModel [ethIface] (fun _ => -1)).1 = 0 ∧
    (fun _ : lssdp_interface => (-1 : Int)) ethIface = -1 ∧
    (sendLoopModel [ethIface] (fun _ => -1)).1 =
      (sendLoopModel [ethIface] (fun _ => 0)).1 :=
  ⟨rfl, rfl, rfl⟩

set_option maxRecDepth 100000 in
/-- C4 (code divergence): a 1200-character search target renders to 1282
bytes, which `snprintf` silently truncates to the 1023 characters that fit
the fixed 1024-byte buffer; no error is signalled anywhere (the builders
have no failure channel at all). -/
theorem c4_builder_truncates_silently :
    1023 < (buildMsearchFull (List.replicate 1200 'a') 1900).length ∧
    (buildMsearchRendered (List.replicate 1200 'a') 1900).length = 1023 ∧
    buildMsearchRendered (List.replicate 1200 'a') 1900 ≠
      buildMsearchFull (List.replicate 1200 'a') 1900 := by
  have hfull : (buildMsearchFull (List.replicate 1200 'a') 1900).length = 1282 := by decide
  have hrend : (buildMsearchRendered (List.replicate 1200 'a') 1900).length = 1023 := by
    rw [buildMsearchRendered, List.length_take, hfull]
    decide
  refine ⟨by omega, hrend, fun h => ?_⟩
  have := congrArg List.length h
  rw [hrend, hfull] at this
  omega

lemma refreshGo_all_ok (M NL : Nat) (entries : List IfEntry) :
    ∀ (acc : List lssdp_interface) (num w : Nat),
    (∀ e ∈ entries, e.family = AF_INET → e.addr.isSome = true) →
    refreshGo M NL entries acc num w =
      (0,
       acc ++ ((entries.filter (fun e => e.family = AF_INET)).take (M - num)).map
         (fun e => storeIf NL e (e.addr.getD [])),
       w + ((entries.filter (fun e => e.family = AF_INET)).length - (M - num))) := by
  induction entries with
  | nil => intro acc num w _; simp [refreshGo]
  | cons e rest ih =>
    intro acc num w h
    have hrest : ∀ e' ∈ rest, e'.family = AF_INET → e'.addr.isSome = true :=
      fun e' he' => h e' (List.mem_cons_of_mem _ he')
    by_cases hf : e.family = AF_INET
    · have hsome : e.addr.isSome = true := h e (List.mem_cons_self _ _) hf
      obtain ⟨ip, hip⟩ := Option.isSome_iff_exists.mp hsome
      rw [List.filter_cons_of_pos (by simp [hf])]
      by_cases hM : M ≤ num
      · rw [show refreshGo M NL (e :: rest) acc num w
              = refreshGo M NL rest acc (num + 1) (w + 1) by
            simp [refreshGo, hf, hip, hM]]
        rw [ih acc (num + 1) (w + 1) hrest]
        rw [show M - num = 0 by omega, show M - (num + 1) = 0 by omega]
        simp only [List.take_zero, List.map_nil, List.append_nil, List.length_cons,
          Prod.mk.injEq, Nat.sub_zero, true_and]
        omega
      · rw [show refreshGo M NL (e :: rest) acc num w
              = refreshGo M NL rest (acc ++ [storeIf NL e ip]) (num + 1) w by
            simp [refreshGo, hf, hip, hM]]
        rw [ih _ (num + 1) w hrest]
        rw [show M - num = (M - (num + 1)) + 1 by omega, List.take_succ_cons]
        simp only [List.map_cons, List.length_cons, hip, Option.getD_some,
          List.append_assoc, List.singleton_append, Prod.mk.injEq, true_and]
        omega
    · rw [show refreshGo M NL (e :: rest) acc num w = refreshGo M NL rest acc num w by
            simp [refreshGo, hf]]
      rw [ih acc num w hrest]
      rw [List.filter_cons_of_neg (by simp [hf])]

lemma refreshGo_ntop_fail (M NL : Nat) (e : IfEntry) (post : List IfEntry)
    (hf : e.family = AF_INET) (ha : e.addr = none) (pre : List IfEntry) :
    ∀ (acc : List lssdp_interface) (num w : Nat),
    (∀ e' ∈ pre, e'.family = AF_INET → e'.addr.isSome = true) →
    refreshGo M NL (pre ++ e :: post) acc num w =
      (-1,
       acc ++ ((pre.filter (fun x => x.family = AF_INET)).take (M - num)).map
         (fun x => storeIf NL x (x.addr.getD [])),
       w + ((pre.filter (fun x => x.family = AF_INET)).length - (M - num))) := by
  induction pre with
  | nil =>
    intro acc num w _
    simp [refreshGo, hf, ha]
  | cons p pre' ih =>
    intro acc num w h
    have hrest : ∀ e' ∈ pre', e'.family = AF_INET → e'.addr.isSome = true :=
      fun e' he' => h e' (List.mem_cons_of_mem _ he')
    by_cases hp : p.family = AF_INET
    · have hsome : p.addr.isSome = true := h p (List.mem_cons_self _ _) hp
      obtain ⟨ip, hip⟩ := Option.isSome_iff_exists.mp hsome
      rw [List.filter_cons_of_pos (by simp [hp])]
      by_cases hM : M ≤ num
      · rw [show refreshGo M NL ((p :: pre') ++ e :: post) acc num w
              = refreshGo M NL (pre' ++ e :: post) acc (num + 1) (w + 1) by
            simp [refreshGo, hp, hip, hM]]
        rw [ih acc (num + 1) (w + 1) hrest]
        rw [show M - num = 0 by omega, show M - (num + 1) = 0 by omega]
        simp only [List.take_zero, List.map_nil, List.append_nil, List.length_cons,
          Prod.mk.injEq, Nat.sub_zero, true_and]
        omega
      · rw [show refreshGo M NL ((p :: pre') ++ e :: post) acc num w
              = refreshGo M NL (pre' ++ e :: post) (acc ++ [storeIf NL p ip]) (num + 1) w by
            simp [refreshGo, hp, hip, hM]]
        rw [ih _ (num + 1) w hrest]
        rw [show M - num = (M - (num + 1)) + 1 by omega, List.take_succ_cons]
        simp only [List.map_cons, List.length_cons, hip, Option.getD_some,
          List.append_assoc, List.singleton_append, Prod.mk.injEq, true_and]
        omega
    · rw [show refreshGo M NL ((p :: pre') ++ e :: post) acc num w
            = refreshGo M NL (pre' ++ e :: post) acc num w by
          simp [refreshGo, hp]]
      rw [ih acc num w hrest]
      rw [List.filter_cons_of_neg (by simp [hp])]

theorem c2_refresh_min_entries (M NL : Nat) (entries : List IfEntry)
    (h : ∀ e ∈ entries, e.family = AF_INET → e.addr.isSome = true) :
    (lssdp_get_network_interface M NL true true entries).1 = 0 ∧
    (lssdp_get_network_interface M NL true true entries).2.1 =
      ((entries.filter (fun e => e.family = AF_INET)).take M).map
        (fun e => storeIf NL e (e.addr.getD [])) ∧
    (lssdp_get_network_interface M NL true true entries).2.1.length =
      min (entries.filter (fun e => e.family = AF_INET)).length M ∧
    (M < (entries.filter (fun e => e.family = AF_INET)).length →
      0 < (lssdp_get_network_interface M NL true true entries).2.2) := by
  have hun : lssdp_get_network_interface M NL true true entries
      = refreshGo M NL entries [] 0 0 := by
    simp [lssdp_get_network_interface]
  rw [hun, refreshGo_all_ok M NL entries [] 0 0 h]
  simp only [Nat.sub_zero, List.nil_append, Nat.zero_add]
  refine ⟨?_, ?_, ?_, ?_⟩
  · trivial
  · trivial
  · rw [List.length_map, List.length_take]
    exact Nat.min_comm _ _
  · intro hlt
    omega

def ifEth0 : IfEntry := ⟨AF_INET, "eth0".toList, some ("10.0.0.1".toList)⟩

def ifSit0 : IfEntry := ⟨10, "sit0".toList, none⟩

def ifEth1 : IfEntry := ⟨AF_INET, "eth1".toList, some ("10.0.0.2".toList)⟩

def ifEth2 : IfEntry := ⟨AF_INET, "eth2".toList, some ("10.0.0.3".toList)⟩

def ifBad : IfEntry := ⟨AF_INET, "eth1".toList, none⟩

theorem c2_refresh_min_entries_witness :
    (lssdp_get_network_interface 2 6 true true [ifEth0, ifSit0, ifEth1, ifEth2]).1 = 0 ∧
    (lssdp_get_network_interface 2 6 true true [ifEth0, ifSit0, ifEth1, ifEth2]).2.1 =
      (([ifEth0, ifSit0, ifEth1, ifEth2].filter (fun e => e.family = AF_INET)).take 2).map
        (fun e => storeIf 6 e (e.addr.getD [])) ∧
    (lssdp_get_network_interface 2 6 true true [ifEth0, ifSit0, ifEth1, ifEth2]).2.1.length =
      min ([ifEth0, ifSit0, ifEth1, ifEth2].filter (fun e => e.family = AF_INET)).length 2 ∧
    (2 < ([ifEth0, ifSit0, ifEth1, ifEth2].filter (fun e => e.family = AF_INET)).length →
      0 < (lssdp_get_network_interface 2 6 true true [ifEth0, ifSit0, ifEth1, ifEth2]).2.2) :=
  c2_refresh_min_entries 2 6 _ (by decide)

theorem c8_counterexample :
    (lssdp_get_network_interface 4 8 true true [ifEth0, ifBad]).1 = -1 ∧
    (lssdp_get_network_interface 4 8 true true [ifEth0, ifBad]).2.1 ≠ [] := by
  decide

theorem c8_refresh_failure_modes (M NL : Nat) (socketOk ioctlOk : Bool)
    (entries pre post : List IfEntry) (e : IfEntry) :
    (socketOk = false →
      lssdp_get_network_interface M NL socketOk ioctlOk entries = (-1, [], 0)) ∧
    (ioctlOk = false →
      lssdp_get_network_interface M NL socketOk ioctlOk entries = (-1, [], 0)) ∧
    (e.family = AF_INET → e.addr = none →
      (∀ e' ∈ pre, e'.family = AF_INET → e'.addr.isSome = true) →
      lssdp_get_network_interface M NL true true (pre ++ e :: post) =
        (-1,
         ((pre.filter (fun x => x.family = AF_INET)).take M).map
           (fun x => storeIf NL x (x.addr.getD [])),
         (pre.filter (fun x => x.family = AF_INET)).length - M)) := by
  refine ⟨?_, ?_, ?_⟩
  · intro hs
    simp [lssdp_get_network_interface, hs]
  · intro hi
    cases socketOk <;> simp [lssdp_get_network_interface, hi]
  · intro hf ha hpre
    have hun : lssdp_get_network_interface M NL true true (pre ++ e :: post)
        = refreshGo M NL (pre ++ e :: post) [] 0 0 := by
      simp [lssdp_get_network_interface]
    rw [hun, refreshGo_ntop_fail M NL e post hf ha pre [] 0 0 hpre]
    simp only [Nat.sub_zero, List.nil_append, Nat.zero_add]

theorem c8_refresh_failure_modes_witness :
    lssdp_get_network_interface 4 8 false true [ifEth0] = (-1, [], 0) ∧
    lssdp_get_network_interface 4 8 true false [ifEth0] = (-1, [], 0) ∧
    lssdp_get_network_interface 4 8 true true ([ifEth0] ++ ifBad :: []) =
      (-1,
       (([ifEth0].filter (fun x => x.family = AF_INET)).take 4).map
         (fun x => storeIf 8 x (x.addr.getD [])),
       ([ifEth0].filter (fun x => x.family = AF_INET)).length - 4) := by
  refine ⟨?_, ?_, ?_⟩
  · exact (c8_refresh_failure_modes 4 8 false true [ifEth0] [] [] ifEth0).1 rfl
  · exact (c8_refresh_failure_modes 4 8 true false [ifEth0] [] [] ifEth0).2.1 rfl
  · exact (c8_refresh_failure_modes 4 8 true true [] [ifEth0] [] ifBad).2.2 rfl rfl (by decide)

lemma colonSearch_some_lt (l : List Char) (j : Nat) (h : colonSearch l = some j) :
    j < l.length := by
  induction l generalizing j with
  | nil => simp [colonSearch] at h
  | cons c rest ih =>
    simp only [List.length_cons]
    by_cases hc : c = ':'
    · simp [colonSearch, hc] at h
      omega
    · simp [colonSearch, hc] at h
      obtain ⟨j', hj', rfl⟩ := h
      have := ih j' hj'
      omega

/-- A field line on which `parse_field_line` fails leaves the packet
untouched in the storing variant: both functions take the same branch. -/
lemma parse_field_line_full_of_not_ok (p : lssdp_packet) (content : List Char)
    (h : parse_field_line content ≠ .ok) :
    parse_field_line_full p content = p := by
  by_cases h0 : content.getD 0 '\x00' = ':'
  · simp only [List.getD_eq_getElem?_getD] at h0
    simp [parse_field_line_full, h0]
  · simp only [List.getD_eq_getElem?_getD] at h0
    cases hc : get_colon_index content with
    | none => simp [parse_field_line_full, h0, hc]
    | some colon =>
      by_cases he : colon + 1 = content.length
      · simp [parse_field_line_full, h0, hc, he]
      · refine absurd ?_ h
        simp [parse_field_line, h0, hc, he]

/-- C6: the three `parse_field_line` error cases (leading colon, no colon at
or after index 1, colon as last byte) are reported as MalformedLine /
MalformedLine / EmptyValue respectively, and a failing line is transparent
to the packet fold: the remaining lines of the datagram are processed
exactly as if the bad line were absent. -/
theorem c6_field_line_error_cases (c1 c2 c3 : List Char) (p : lssdp_packet)
    (l1 l2 : List (List Char)) (bad : List Char)
    (h1 : c1.getD 0 '\x00' = ':')
    (h2a : c2.getD 0 '\x00' ≠ ':') (h2b : get_colon_index c2 = none)
    (h3a : c3.getD 0 '\x00' ≠ ':') (h3b : get_colon_index c3 = some (c3.length - 1))
    (hbad : parse_field_line bad ≠ .ok) :
    parse_field_line c1 = .malformedLine ∧
    parse_field_line c2 = .malformedLine ∧
    parse_field_line c3 = .emptyValue ∧
    (l1 ++ bad :: l2).foldl parse_field_line_full p =
      (l1 ++ l2).foldl parse_field_line_full p := by
  simp only [List.getD_eq_getElem?_getD] at h1 h2a h3a
  refine ⟨by simp [parse_field_line, h1], by simp [parse_field_line, h2a, h2b], ?_, ?_⟩
  · have hlen : c3.length - 1 + 1 = c3.length := by
      unfold get_colon_index at h3b
      rw [Option.map_eq_some'] at h3b
      obtain ⟨j, hj, hj2⟩ := h3b
      have := colonSearch_some_lt _ _ hj
      rw [List.length_drop] at this
      omega
    simp [parse_field_line, h3a, h3b, hlen]
  · rw [List.foldl_append, List.foldl_append, List.foldl_cons,
      parse_field_line_full_of_not_ok _ _ hbad]

/-- C6 witness: a line starting with a colon, a colon-free line, a line
ending in its only colon, and a fold where the bad line `":y"` is skipped
while the following `"ST:f"` line is still processed. -/
theorem c6_field_line_error_cases_witness :
    parse_field_line ([':', 'x']) = .malformedLine ∧
    parse_field_line (['a', 'b']) = .malformedLine ∧
    parse_field_line (['S', 'T', ':']) = .emptyValue ∧
    ([[':', 'y'], ['S', 'T', ':', 'f']]).foldl parse_field_line_full emptyPacket =
      ([['S', 'T', ':', 'f']]).foldl parse_field_line_full emptyPacket :=
  c6_field_line_error_cases [':', 'x'] ['a', 'b'] ['S', 'T', ':'] emptyPacket
    [] [['S', 'T', ':', 'f']] [':', 'y']
    (by decide) (by decide) (by decide) (by decide) (by decide) (by decide)

lemma storeField_method (p : lssdp_packet) (nm v : List Char) :
    (storeField p nm v).method = p.method := by
  unfold storeField
  split_ifs <;> rfl

lemma parse_field_line_full_method (p : lssdp_packet) (c : List Char) :
    (parse_field_line_full p c).method = p.method := by
  unfold parse_field_line_full
  split
  · rfl
  · split
    · rfl
    · split
      · rfl
      · exact storeField_method _ _ _

/-- The field-line scan never writes the method field. -/
lemma scanFields_method (d : List Char) (start : Nat) (p : lssdp_packet) :
    (scanFields d start p).method = p.method := by
  unfold scanFields
  generalize segLoop [] (d.drop start) = lines
  induction lines generalizing p with
  | nil => rfl
  | cons l ls ih => rw [List.foldl_cons, ih, parse_field_line_full_method]

/-- C3 (amended): on a length-consistent datagram, the parser reports
success and sets the method if and only if one of the three fixed request
lines is a byte-exact prefix of the datagram AND the datagram is strictly
longer than that request line; otherwise it returns `-1` with the packet
unmodified.  (The strictness is the correction: the C check is
`strlen(header) < data_len`, so a datagram that is exactly a request line is
rejected.) -/
theorem c3_method_classification (data : List Char) (data_len : Nat) (p : lssdp_packet)
    (hv : data_len = cstrlen data) :
    ((lssdp_packet_parse data data_len p).1 = 0 ↔
      ((LSSDP_MSEARCH_HEADER.length < data_len ∧ LSSDP_MSEARCH_HEADER.isPrefixOf data = true) ∨
       (LSSDP_NOTIFY_HEADER.length < data_len ∧ LSSDP_NOTIFY_HEADER.isPrefixOf data = true) ∨
       (LSSDP_RESPONSE_HEADER.length < data_len ∧ LSSDP_RESPONSE_HEADER.isPrefixOf data = true))) ∧
    ((lssdp_packet_parse data data_len p).1 = 0 →
      (lssdp_packet_parse data data_len p).2.method ≠ []) ∧
    ((lssdp_packet_parse data data_len p).1 ≠ 0 →
      lssdp_packet_parse data data_len p = (-1, p)) := by
  have hne : ¬(data_len ≠ cstrlen data) := fun h => h hv
  unfold lssdp_packet_parse
  rw [if_neg hne]
  by_cases hA : LSSDP_MSEARCH_HEADER.length < data_len ∧ LSSDP_MSEARCH_HEADER.isPrefixOf data = true
  · rw [if_pos hA]
    refine ⟨iff_of_true rfl (Or.inl hA), fun _ => ?_, fun h0 => absurd rfl h0⟩
    rw [scanFields_method]
    exact (by decide : ("M-SEARCH".toList : List Char) ≠ [])
  · rw [if_neg hA]
    by_cases hB : LSSDP_NOTIFY_HEADER.length < data_len ∧ LSSDP_NOTIFY_HEADER.isPrefixOf data = true
    · rw [if_pos hB]
      refine ⟨iff_of_true rfl (Or.inr (Or.inl hB)), fun _ => ?_, fun h0 => absurd rfl h0⟩
      rw [scanFields_method]
      exact (by decide : ("NOTIFY".toList : List Char) ≠ [])
    · rw [if_neg hB]
      by_cases hC : LSSDP_RESPONSE_HEADER.length < data_len ∧ LSSDP_RESPONSE_HEADER.isPrefixOf data = true
      · rw [if_pos hC]
        refine ⟨iff_of_true rfl (Or.inr (Or.inr hC)), fun _ => ?_, fun h0 => absurd rfl h0⟩
        rw [scanFields_method]
        exact (by decide : ("RESPONSE".toList : List Char) ≠ [])
      · rw [if_neg hC]
        refine ⟨iff_of_false (by decide : ¬((-1 : Int) = 0)) ?_,
          fun h0 => absurd h0 (by decide : ¬((-1 : Int) = 0)), fun _ => rfl⟩
        rintro (h | h | h)
        · exact hA h
        · exact hB h
        · exact hC h

/-- C3 witness: a NOTIFY datagram one field line longer than the request
line is classified, a junk datagram is not. -/
theorem c3_method_classification_witness :
    (((lssdp_packet_parse (("NOTIFY * HTTP/1.1\r\nST:a\r\n").toList) 25 emptyPacket).1 = 0 ↔
      ((LSSDP_MSEARCH_HEADER.length < 25 ∧
        LSSDP_MSEARCH_HEADER.isPrefixOf (("NOTIFY * HTTP/1.1\r\nST:a\r\n").toList) = true) ∨
       (LSSDP_NOTIFY_HEADER.length < 25 ∧
        LSSDP_NOTIFY_HEADER.isPrefixOf (("NOTIFY * HTTP/1.1\r\nST:a\r\n").toList) = true) ∨
       (LSSDP_RESPONSE_HEADER.length < 25 ∧
        LSSDP_RESPONSE_HEADER.isPrefixOf (("NOTIFY * HTTP/1.1\r\nST:a\r\n").toList) = true))) ∧
     ((lssdp_packet_parse (("NOTIFY * HTTP/1.1\r\nST:a\r\n").toList) 25 emptyPacket).1 = 0 →
       (lssdp_packet_parse (("NOTIFY * HTTP/1.1\r\nST:a\r\n").toList) 25 emptyPacket).2.method ≠ []) ∧
     ((lssdp_packet_parse (("NOTIFY * HTTP/1.1\r\nST:a\r\n").toList) 25 emptyPacket).1 ≠ 0 →
       lssdp_packet_parse (("NOTIFY * HTTP/1.1\r\nST:a\r\n").toList) 25 emptyPacket =
         (-1, emptyPacket))) :=
  c3_method_classification (("NOTIFY * HTTP/1.1\r\nST:a\r\n").toList) 25 emptyPacket
    (by decide)

/-- C3 counterexample: the datagram that is exactly the NOTIFY request line
(first line byte-exactly one of the three fixed request lines, trailing CRLF
included) is rejected with `-1` and no method is set, refuting the claimed
"if and only if". -/
theorem c3_counterexample :
    LSSDP_NOTIFY_HEADER.isPrefixOf (("NOTIFY * HTTP/1.1\r\n").toList) = true ∧
    cstrlen (("NOTIFY * HTTP/1.1\r\n").toList) = 19 ∧
    lssdp_packet_parse (("NOTIFY * HTTP/1.1\r\n").toList) 19 emptyPacket =
      (-1, emptyPacket) := by
  decide

/- Cleanliness lemmas for the round-trip proof. -/

lemma CleanList.not_nul (h : CleanList l) : '\x00' ∉ l := fun hm => (h _ hm).1 rfl

lemma CleanList.not_cr (h : CleanList l) : '\r' ∉ l := fun hm => (h _ hm).2.1 rfl

lemma digitChar_clean (n : Nat) :
    digitChar n ≠ '\x00' ∧ digitChar n ≠ '\r' ∧ digitChar n ≠ '\n' := by
  rcases n with _ | _ | _ | _ | _ | _ | _ | _ | _ | n
  case succ =>
    exact (by decide : ('9' : Char) ≠ '\x00' ∧ ('9' : Char) ≠ '\r' ∧ ('9' : Char) ≠ '\n')
  all_goals decide

lemma mem_natReprAux (fuel : Nat) :
    ∀ (n : Nat) (acc : List Char) (c : Char), c ∈ natReprAux fuel n acc →
      (∃ d, c = digitChar d) ∨ c ∈ acc := by
  induction fuel with
  | zero => intro n acc c hc; exact Or.inr hc
  | succ fuel ih =>
    intro n acc c hc
    unfold natReprAux at hc
    by_cases hn : n < 10
    · rw [if_pos hn] at hc
      rcases List.mem_cons.mp hc with h | h
      · exact Or.inl ⟨n, h⟩
      · exact Or.inr h
    · rw [if_neg hn] at hc
      rcases ih (n / 10) _ c hc with h | h
      · exact Or.inl h
      · rcases List.mem_cons.mp h with h' | h'
        · exact Or.inl ⟨n % 10, h'⟩
        · exact Or.inr h'

lemma natRepr_clean (n : Nat) : CleanList (natRepr n) := by
  intro c hc
  rcases mem_natReprAux _ _ _ _ hc with ⟨d, rfl⟩ | h
  · exact digitChar_clean d
  · simp at h

lemma intRepr_clean (i : Int) : CleanList (intRepr i) := by
  intro c hc
  unfold intRepr at hc
  by_cases hi : i < 0
  · rw [if_pos hi] at hc
    rcases List.mem_cons.mp hc with h | h
    · subst h; exact (by decide)
    · exact natRepr_clean _ _ h
  · rw [if_neg hi] at hc
    exact natRepr_clean _ _ hc

lemma cleanList_append (a b : List Char) (ha : CleanList a) (hb : CleanList b) :
    CleanList (a ++ b) := by
  intro c hc
  rcases List.mem_append.mp hc with h | h
  · exact ha _ h
  · exact hb _ h

lemma locationSuffix_clean (loc : lssdp_location) (huri : CleanList loc.uri) :
    CleanList (locationSuffix loc) := by
  unfold locationSuffix
  refine cleanList_append _ _ ?_ ?_
  · split
    · intro c hc
      rcases List.mem_cons.mp hc with h | h
      · subst h; exact (by decide)
      · exact intRepr_clean _ _ h
    · intro c hc; simp at hc
  · split
    · intro c hc
      rcases List.mem_cons.mp hc with h | h
      · subst h; exact (by decide)
      · exact huri _ h
    · intro c hc; simp at hc

lemma cleanList_cons (c : Char) (l : List Char)
    (hc : c ≠ '\x00' ∧ c ≠ '\r' ∧ c ≠ '\n') (hl : CleanList l) :
    CleanList (c :: l) := by
  intro x hx
  rcases List.mem_cons.mp hx with h | h
  · subst h; exact hc
  · exact hl _ h

lemma buildLocation_clean (loc : lssdp_location) (iface : lssdp_interface)
    (hhost : CleanList loc.host) (huri : CleanList loc.uri) :
    CleanList (buildLocation loc iface) := by
  unfold buildLocation
  split
  · exact cleanList_append _ _ hhost (locationSuffix_clean loc huri)
  · exact
      cleanList_append _ _
        (cleanList_append _ _
          (cleanList_append _ _
            (cleanList_append _ _ (intRepr_clean _)
              (cleanList_cons _ _ (by decide) (intRepr_clean _)))
            (cleanList_cons _ _ (by decide) (intRepr_clean _)))
          (cleanList_cons _ _ (by decide) (intRepr_clean _)))
        (locationSuffix_clean loc huri)

lemma cstrlen_eq_length (l : List Char) (h : NoNul l) : cstrlen l = l.length := by
  induction l with
  | nil => rfl
  | cons c r ih =>
    have hc : c ≠ '\x00' := h c (List.mem_cons_self _ _)
    rw [cstrlen, if_neg hc, ih (fun x hx => h x (List.mem_cons_of_mem _ hx))]
    rfl

/- Prefix lemmas for the method classification of the built message. -/

lemma isPrefixOf_append_self (l t : List Char) : l.isPrefixOf (l ++ t) = true := by
  induction l with
  | nil => simp
  | cons c r ih =>
    rw [List.cons_append, List.isPrefixOf_cons₂, ih]
    simp

lemma msearch_not_prefixOf_notify (rest : List Char) :
    LSSDP_MSEARCH_HEADER.isPrefixOf (LSSDP_NOTIFY_HEADER ++ rest) = false := by
  rw [show LSSDP_MSEARCH_HEADER = 'M' :: ("-SEARCH * HTTP/1.1\r\n").toList from by decide,
    show LSSDP_NOTIFY_HEADER = 'N' :: ("OTIFY * HTTP/1.1\r\n").toList from by decide]
  rw [List.cons_append, List.isPrefixOf_cons₂]
  simp

/- Line segmentation of a well-formed CRLF message. -/

/-- Concatenate line contents with CRLF terminators. -/
def joinLines : List (List Char) → List Char
  | [] => []
  | l :: ls => l ++ '\r' :: '\n' :: joinLines ls

lemma segLoop_line (L : List Char) :
    ∀ (acc rest : List Char), '\r' ∉ L → acc ++ L ≠ [] →
      segLoop acc (L ++ '\r' :: '\n' :: rest) = (acc ++ L) :: segLoop [] rest := by
  induction L with
  | nil =>
    intro acc rest _ hne
    rw [List.append_nil] at hne ⊢
    simp [segLoop, hne]
  | cons c cs ih =>
    intro acc rest hcr hne
    have hc : c ≠ '\r' := fun h => hcr (h ▸ List.mem_cons_self _ _)
    have hcs : '\r' ∉ cs := fun h => hcr (List.mem_cons_of_mem _ h)
    have step : segLoop acc ((c :: cs) ++ '\r' :: '\n' :: rest)
        = segLoop (acc ++ [c]) (cs ++ '\r' :: '\n' :: rest) := by
      cases cs with
      | nil => simp [segLoop, hc]
      | cons d ds => simp [segLoop, hc]
    rw [step, ih (acc ++ [c]) rest hcs (by simp), List.append_assoc]
    rfl

lemma segLoop_joinLines (ls : List (List Char))
    (h : ∀ l ∈ ls, l ≠ [] ∧ '\r' ∉ l) :
    segLoop [] (joinLines ls ++ ['\r', '\n']) = ls := by
  induction ls with
  | nil => rfl
  | cons l ls ih =>
    obtain ⟨hne, hcr⟩ := h l (List.mem_cons_self _ _)
    rw [joinLines, List.append_assoc]
    rw [show ('\r' :: '\n' :: joinLines ls) ++ ['\r', '\n']
        = '\r' :: '\n' :: (joinLines ls ++ ['\r', '\n']) from by simp]
    rw [segLoop_line l [] _ hcr (by simpa using hne), List.nil_append]
    rw [ih (fun x hx => h x (List.mem_cons_of_mem _ hx))]

lemma colonSearch_append (l v : List Char) (h : ':' ∉ l) :
    colonSearch (l ++ ':' :: v) = some l.length := by
  induction l with
  | nil => simp [colonSearch]
  | cons c cs ih =>
    have hc : c ≠ ':' := fun hx => h (hx ▸ List.mem_cons_self _ _)
    rw [List.cons_append, colonSearch, if_neg hc,
      ih (fun hx => h (List.mem_cons_of_mem _ hx))]
    rfl

/-- Evaluation of the storing field-line parser on a well-shaped line
`name ++ ':' :: value` whose name is non-empty and colon-free. -/
lemma parse_field_line_full_shape (p : lssdp_packet) (nm v : List Char)
    (hnm : ':' ∉ nm) (hne : nm ≠ []) :
    parse_field_line_full p (nm ++ ':' :: v) = if v = [] then p else storeField p nm v := by
  obtain ⟨c0, nm', rfl⟩ : ∃ c0 nm', nm = c0 :: nm' := by
    cases nm with
    | nil => exact absurd rfl hne
    | cons a b => exact ⟨a, b, rfl⟩
  have hc0 : c0 ≠ ':' := fun h => hnm (h ▸ List.mem_cons_self _ _)
  have hcolon : get_colon_index ((c0 :: nm') ++ ':' :: v) = some (nm'.length + 1) := by
    unfold get_colon_index
    rw [show ((c0 :: nm') ++ ':' :: v).drop 1 = nm' ++ ':' :: v from rfl,
      colonSearch_append nm' v (fun hx => hnm (List.mem_cons_of_mem _ hx))]
    rfl
  unfold parse_field_line_full
  rw [if_neg (show ¬(((c0 :: nm') ++ ':' :: v).getD 0 '\x00' = ':') from by
    rw [List.cons_append, List.getD_cons_zero]; exact hc0)]
  simp only [hcolon]
  have hlen : ((c0 :: nm') ++ ':' :: v).length = nm'.length + 2 + v.length := by
    simp [List.length_append]
    omega
  by_cases hv : v = []
  · subst hv
    rw [if_pos (by rw [hlen]; rfl), if_pos rfl]
  · have hvpos : 0 < v.length := List.length_pos.mpr hv
    rw [if_neg (by rw [hlen]; omega), if_neg hv]
    have ht : ((c0 :: nm') ++ ':' :: v).take (nm'.length + 1) = c0 :: nm' := by
      rw [List.cons_append, List.take_succ_cons, List.take_left]
    have hd : ((c0 :: nm') ++ ':' :: v).drop (nm'.length + 1 + 1) = v := by
      rw [List.cons_append, List.drop_succ_cons,
        show nm' ++ ':' :: v = (nm' ++ [':']) ++ v from by simp,
        List.drop_left' (by simp)]
    rw [ht, hd]

/-- A well-shaped line whose (case-normalised) name is none of the five
known fields leaves the packet unchanged. -/
lemma parse_line_unknown (p : lssdp_packet) (nm v : List Char)
    (hnm : ':' ∉ nm) (hne : nm ≠ [])
    (n1 : nm.map Char.toUpper ≠ "ST".toList)
    (n2 : nm.map Char.toUpper ≠ "USN".toList)
    (n3 : nm.map Char.toUpper ≠ "LOCATION".toList)
    (n4 : nm.map Char.toUpper ≠ "SM_ID".toList)
    (n5 : nm.map Char.toUpper ≠ "DEV_TYPE".toList) :
    parse_field_line_full p (nm ++ ':' :: v) = p := by
  rw [parse_field_line_full_shape p nm v hnm hne]
  by_cases hv : v = []
  · rw [if_pos hv]
  · rw [if_neg hv]
    unfold storeField
    rw [if_neg n1, if_neg n2, if_neg n3, if_neg n4, if_neg n5]

/- Projection lemmas: how one well-shaped field line affects each packet
attribute.  These avoid rewriting whole-record terms. -/

lemma parse_line_proj_st (q : lssdp_packet) (nm v : List Char)
    (hnm : ':' ∉ nm) (hne : nm ≠ []) (hX : nm.map Char.toUpper ≠ "ST".toList) :
    (parse_field_line_full q (nm ++ ':' :: v)).st = q.st := by
  rw [parse_field_line_full_shape q nm v hnm hne]
  by_cases hv : v = []
  · rw [if_pos hv]
  · rw [if_neg hv]
    unfold storeField
    rw [if_neg hX]
    split_ifs <;> rfl

lemma parse_line_proj_usn (q : lssdp_packet) (nm v : List Char)
    (hnm : ':' ∉ nm) (hne : nm ≠ []) (hX : nm.map Char.toUpper ≠ "USN".toList) :
    (parse_field_line_full q (nm ++ ':' :: v)).usn = q.usn := by
  rw [parse_field_line_full_shape q nm v hnm hne]
  by_cases hv : v = []
  · rw [if_pos hv]
  · rw [if_neg hv]
    unfold storeField
    split_ifs with h1 h2 <;> first | rfl | exact absurd h2 hX

lemma parse_line_proj_location (q : lssdp_packet) (nm v : List Char)
    (hnm : ':' ∉ nm) (hne : nm ≠ []) (hX : nm.map Char.toUpper ≠ "LOCATION".toList) :
    (parse_field_line_full q (nm ++ ':' :: v)).location = q.location := by
  rw [parse_field_line_full_shape q nm v hnm hne]
  by_cases hv : v = []
  · rw [if_pos hv]
  · rw [if_neg hv]
    unfold storeField
    split_ifs with h1 h2 h3 <;> first | rfl | exact absurd h3 hX

lemma parse_line_proj_sm_id (q : lssdp_packet) (nm v : List Char)
    (hnm : ':' ∉ nm) (hne : nm ≠ []) (hX : nm.map Char.toUpper ≠ "SM_ID".toList) :
    (parse_field_line_full q (nm ++ ':' :: v)).sm_id = q.sm_id := by
  rw [parse_field_line_full_shape q nm v hnm hne]
  by_cases hv : v = []
  · rw [if_pos hv]
  · rw [if_neg hv]
    unfold storeField
    split_ifs with h1 h2 h3 h4 <;> first | rfl | exact absurd h4 hX

lemma parse_line_proj_dev_type (q : lssdp_packet) (nm v : List Char)
    (hnm : ':' ∉ nm) (hne : nm ≠ []) (hX : nm.map Char.toUpper ≠ "DEV_TYPE".toList) :
    (parse_field_line_full q (nm ++ ':' :: v)).device_type = q.device_type := by
  rw [parse_field_line_full_shape q nm v hnm hne]
  by_cases hv : v = []
  · rw [if_pos hv]
  · rw [if_neg hv]
    unfold storeField
    split_ifs with h1 h2 h3 h4 h5 <;> first | rfl | exact absurd h5 hX

lemma parse_line_set_st (q : lssdp_packet) (v : List Char) :
    (parse_field_line_full q ("ST".toList ++ ':' :: v)).st
      = if v = [] then q.st else v := by
  rw [parse_field_line_full_shape q _ v (by decide) (by decide)]
  by_cases hv : v = []
  · rw [if_pos hv, if_pos hv]
  · rw [if_neg hv, if_neg hv]
    unfold storeField
    rw [if_pos (by decide)]

lemma parse_line_set_usn (q : lssdp_packet) (v : List Char) :
    (parse_field_line_full q ("USN".toList ++ ':' :: v)).usn
      = if v = [] then q.usn else v := by
  rw [parse_field_line_full_shape q _ v (by decide) (by decide)]
  by_cases hv : v = []
  · rw [if_pos hv, if_pos hv]
  · rw [if_neg hv, if_neg hv]
    unfold storeField
    rw [if_neg (by decide), if_pos (by decide)]

lemma parse_line_set_location (q : lssdp_packet) (v : List Char) :
    (parse_field_line_full q ("LOCATION".toList ++ ':' :: v)).location
      = if v = [] then q.location else v := by
  rw [parse_field_line_full_shape q _ v (by decide) (by decide)]
  by_cases hv : v = []
  · rw [if_pos hv, if_pos hv]
  · rw [if_neg hv, if_neg hv]
    unfold storeField
    rw [if_neg (by decide), if_neg (by decide), if_pos (by decide)]

lemma parse_line_set_sm_id (q : lssdp_packet) (v : List Char) :
    (parse_field_line_full q ("SM_ID".toList ++ ':' :: v)).sm_id
      = if v = [] then q.sm_id else v := by
  rw [parse_field_line_full_shape q _ v (by decide) (by decide)]
  by_cases hv : v = []
  · rw [if_pos hv, if_pos hv]
  · rw [if_neg hv, if_neg hv]
    unfold storeField
    rw [if_neg (by decide), if_neg (by decide), if_neg (by decide), if_pos (by decide)]

lemma parse_line_set_dev_type (q : lssdp_packet) (v : List Char) :
    (parse_field_line_full q ("DEV_TYPE".toList ++ ':' :: v)).device_type
      = if v = [] then q.device_type else v := by
  rw [parse_field_line_full_shape q _ v (by decide) (by decide)]
  by_cases hv : v = []
  · rw [if_pos hv, if_pos hv]
  · rw [if_neg hv, if_neg hv]
    unfold storeField
    rw [if_neg (by decide), if_neg (by decide), if_neg (by decide), if_neg (by decide),
      if_pos (by decide)]

/-- The twelve field lines of the rendered NOTIFY message, each in
`name ++ ':' :: value` shape, in message order. -/
def notifyLines (hdr : lssdp_header) (ssdpPort : Int) (iface : lssdp_interface) :
    List (List Char) :=
  [ "HOST".toList ++ ':' :: (LSSDP_MULTICAST_ADDR ++ ':' :: intRepr ssdpPort),
    "CACHE-CONTROL".toList ++ ':' :: "max-age=120".toList,
    "ST".toList ++ ':' :: hdr.st,
    "USN".toList ++ ':' :: hdr.usn,
    "LOCATION".toList ++ ':' :: buildLocation hdr.location iface,
    "SM_ID".toList ++ ':' :: hdr.sm_id,
    "DEV_TYPE".toList ++ ':' :: hdr.device_type,
    "OPT".toList ++ ':' :: ("\"http://schemas.upnp.org/upnp/1/0/\"; ns=01").toList,
    "01-NLS".toList ++ ':' :: "1".toList,
    "BOOTID.UPNP.ORG".toList ++ ':' :: "1".toList,
    "CONFIGID.UPNP.ORG".toList ++ ':' :: "1337".toList,
    "NTS".toList ++ ':' :: "ssdp:alive".toList ]

set_option maxRecDepth 4000 in
/-- The built NOTIFY text is its request line followed by the twelve
CRLF-terminated field lines and the final blank line. -/
lemma buildNotifyFull_decomp (hdr : lssdp_header) (ssdpPort : Int) (iface : lssdp_interface) :
    buildNotifyFull hdr ssdpPort iface =
      LSSDP_NOTIFY_HEADER ++ (joinLines (notifyLines hdr ssdpPort iface) ++ ['\r', '\n']) := by
  unfold buildNotifyFull notifyLines
  simp only [joinLines]
  rw [show ("HOST:" : String).toList = "HOST".toList ++ [':'] from by decide,
    show ("\r\n" : String).toList = ['\r', '\n'] from by decide,
    show ("CACHE-CONTROL:max-age=120\r\n" : String).toList
      = "CACHE-CONTROL".toList ++ [':'] ++ "max-age=120".toList ++ ['\r', '\n'] from by decide,
    show ("ST:" : String).toList = "ST".toList ++ [':'] from by decide,
    show ("USN:" : String).toList = "USN".toList ++ [':'] from by decide,
    show ("LOCATION:" : String).toList = "LOCATION".toList ++ [':'] from by decide,
    show ("SM_ID:" : String).toList = "SM_ID".toList ++ [':'] from by decide,
    show ("DEV_TYPE:" : String).toList = "DEV_TYPE".toList ++ [':'] from by decide,
    show LSSDP_UDA_v1_1
      = "OPT".toList ++ [':'] ++ ("\"http://schemas.upnp.org/upnp/1/0/\"; ns=01").toList
        ++ ['\r', '\n'] ++ "01-NLS".toList ++ [':'] ++ "1".toList ++ ['\r', '\n']
        ++ "BOOTID.UPNP.ORG".toList ++ [':'] ++ "1".toList ++ ['\r', '\n']
        ++ "CONFIGID.UPNP.ORG".toList ++ [':'] ++ "1337".toList ++ ['\r', '\n'] from by decide,
    show ("NTS:ssdp:alive\r\n" : String).toList
      = "NTS".toList ++ [':'] ++ "ssdp:alive".toList ++ ['\r', '\n'] from by decide]
  simp [List.append_assoc]

lemma noNul_append (a b : List Char) (ha : NoNul a) (hb : NoNul b) : NoNul (a ++ b) :=
  fun c hc => (List.mem_append.mp hc).elim (ha c) (hb c)

lemma noNul_joinLines (ls : List (List Char)) (h : ∀ l ∈ ls, NoNul l) :
    NoNul (joinLines ls) := by
  induction ls with
  | nil => intro c hc; simp [joinLines] at hc
  | cons l ls ih =>
    rw [joinLines]
    refine noNul_append _ _ (h l (List.mem_cons_self _ _)) ?_
    intro c hc
    rcases List.mem_cons.mp hc with rfl | hc
    · decide
    rcases List.mem_cons.mp hc with rfl | hc
    · decide
    · exact ih (fun x hx => h x (List.mem_cons_of_mem _ hx)) c hc

/-- A well-shaped line built from clean name and value is non-empty,
CR-free and NUL-free. -/
lemma line_wf (nm v : List Char) (hnm : CleanList nm) (hv : CleanList v) :
    (nm ++ ':' :: v) ≠ [] ∧ '\r' ∉ (nm ++ ':' :: v) ∧ NoNul (nm ++ ':' :: v) := by
  have h : CleanList (nm ++ ':' :: v) :=
    cleanList_append _ _ hnm (cleanList_cons _ _ (by decide) hv)
  exact ⟨by simp, h.not_cr, fun c hc => (h c hc).1⟩

lemma notifyLines_wf (hdr : lssdp_header) (ssdpPort : Int) (iface : lssdp_interface)
    (hst : CleanList hdr.st) (husn : CleanList hdr.usn)
    (hsm : CleanList hdr.sm_id) (hdev : CleanList hdr.device_type)
    (hhost : CleanList hdr.location.host) (huri : CleanList hdr.location.uri) :
    ∀ l ∈ notifyLines hdr ssdpPort iface, l ≠ [] ∧ '\r' ∉ l ∧ NoNul l := by
  intro l hl
  simp only [notifyLines, List.mem_cons, List.not_mem_nil, or_false] at hl
  rcases hl with rfl | rfl | rfl | rfl | rfl | rfl | rfl | rfl | rfl | rfl | rfl | rfl
  · exact line_wf _ _ (by decide)
      (cleanList_append _ _ (by decide) (cleanList_cons _ _ (by decide) (intRepr_clean _)))
  · exact line_wf _ _ (by decide) (by decide)
  · exact line_wf _ _ (by decide) hst
  · exact line_wf _ _ (by decide) husn
  · exact line_wf _ _ (by decide) (buildLocation_clean _ _ hhost huri)
  · exact line_wf _ _ (by decide) hsm
  · exact line_wf _ _ (by decide) hdev
  · exact line_wf _ _ (by decide) (by decide)
  · exact line_wf _ _ (by decide) (by decide)
  · exact line_wf _ _ (by decide) (by decide)
  · exact line_wf _ _ (by decide) (by decide)
  · exact line_wf _ _ (by decide) (by decide)

/-- C1 (amended round trip): for header configurations whose fields are
NUL/CR/LF-free, whose rendered message fits the 1024-byte `snprintf` buffer
and whose LOCATION fits its 256-byte buffer (so the C rendering is defined
and untruncated), parsing the rendered NOTIFY recovers `st`, `usn`,
`location` (the derived host-or-IP + port + uri value), `sm_id` and
`device_type` exactly.  Field-value storage is the spec-modelled completion
of the `parse_field_line` TODO. -/
theorem c1_notify_roundtrip (hdr : lssdp_header) (ssdpPort : Int) (iface : lssdp_interface)
    (hst : CleanList hdr.st) (husn : CleanList hdr.usn)
    (hsm : CleanList hdr.sm_id) (hdev : CleanList hdr.device_type)
    (hhost : CleanList hdr.location.host) (huri : CleanList hdr.location.uri)
    (hfit : (buildNotifyFull hdr ssdpPort iface).length ≤ 1023)
    (hlocfit : (buildLocation hdr.location iface).length ≤ 255) :
    (lssdp_packet_parse (buildNotifyRendered hdr ssdpPort iface)
      (buildNotifyRendered hdr ssdpPort iface).length emptyPacket).1 = 0 ∧
    (lssdp_packet_parse (buildNotifyRendered hdr ssdpPort iface)
      (buildNotifyRendered hdr ssdpPort iface).length emptyPacket).2.method = "NOTIFY".toList ∧
    (lssdp_packet_parse (buildNotifyRendered hdr ssdpPort iface)
      (buildNotifyRendered hdr ssdpPort iface).length emptyPacket).2.st = hdr.st ∧
    (lssdp_packet_parse (buildNotifyRendered hdr ssdpPort iface)
      (buildNotifyRendered hdr ssdpPort iface).length emptyPacket).2.usn = hdr.usn ∧
    (lssdp_packet_parse (buildNotifyRendered hdr ssdpPort iface)
      (buildNotifyRendered hdr ssdpPort iface).length emptyPacket).2.location =
        buildLocation hdr.location iface ∧
    (lssdp_packet_parse (buildNotifyRendered hdr ssdpPort iface)
      (buildNotifyRendered hdr ssdpPort iface).length emptyPacket).2.sm_id = hdr.sm_id ∧
    (lssdp_packet_parse (buildNotifyRendered hdr ssdpPort iface)
      (buildNotifyRendered hdr ssdpPort iface).length emptyPacket).2.device_type =
        hdr.device_type := by
  have hwf := notifyLines_wf hdr ssdpPort iface hst husn hsm hdev hhost huri
  have hnul : NoNul (buildNotifyFull hdr ssdpPort iface) := by
    rw [buildNotifyFull_decomp]
    refine noNul_append _ _ (by decide)
      (noNul_append _ _ (noNul_joinLines _ (fun l hl => (hwf l hl).2.2)) (by decide))
  have hrend : buildNotifyRendered hdr ssdpPort iface = buildNotifyFull hdr ssdpPort iface := by
    unfold buildNotifyRendered
    exact List.take_of_length_le hfit
  rw [hrend]
  have hcl : cstrlen (buildNotifyFull hdr ssdpPort iface)
      = (buildNotifyFull hdr ssdpPort iface).length := cstrlen_eq_length _ hnul
  have hlen19 : LSSDP_NOTIFY_HEADER.length < (buildNotifyFull hdr ssdpPort iface).length := by
    rw [buildNotifyFull_decomp, List.length_append, List.length_append]
    have h2 : (['\r', '\n'] : List Char).length = 2 := rfl
    omega
  unfold lssdp_packet_parse
  rw [if_neg (show ¬((buildNotifyFull hdr ssdpPort iface).length
      ≠ cstrlen (buildNotifyFull hdr ssdpPort iface)) from fun h => h hcl.symm)]
  rw [if_neg (show ¬(LSSDP_MSEARCH_HEADER.length < (buildNotifyFull hdr ssdpPort iface).length
      ∧ LSSDP_MSEARCH_HEADER.isPrefixOf (buildNotifyFull hdr ssdpPort iface) = true) from by
    rintro ⟨-, hpre⟩
    rw [buildNotifyFull_decomp hdr ssdpPort iface, msearch_not_prefixOf_notify] at hpre
    simp at hpre)]
  rw [if_pos (show LSSDP_NOTIFY_HEADER.length < (buildNotifyFull hdr ssdpPort iface).length
      ∧ LSSDP_NOTIFY_HEADER.isPrefixOf (buildNotifyFull hdr ssdpPort iface) = true from
    ⟨hlen19, by rw [buildNotifyFull_decomp]; exact isPrefixOf_append_self _ _⟩)]
  rw [List.take_length]
  unfold scanFields
  rw [show (buildNotifyFull hdr ssdpPort iface).drop LSSDP_NOTIFY_HEADER.length
      = joinLines (notifyLines hdr ssdpPort iface) ++ ['\r', '\n'] from by
    rw [buildNotifyFull_decomp]
    exact List.drop_left _ _]
  rw [segLoop_joinLines _ (fun l hl => ⟨(hwf l hl).1, (hwf l hl).2.1⟩)]
  unfold notifyLines
  simp only [List.foldl_cons, List.foldl_nil]
  have u1 : ∀ q, parse_field_line_full q
      ("HOST".toList ++ ':' :: (LSSDP_MULTICAST_ADDR ++ ':' :: intRepr ssdpPort)) = q :=
    fun q => parse_line_unknown q _ _ (by decide) (by decide) (by decide) (by decide)
      (by decide) (by decide) (by decide)
  have u2 : ∀ q, parse_field_line_full q
      ("CACHE-CONTROL".toList ++ ':' :: "max-age=120".toList) = q :=
    fun q => parse_line_unknown q _ _ (by decide) (by decide) (by decide) (by decide)
      (by decide) (by decide) (by decide)
  have u8 : ∀ q, parse_field_line_full q
      ("OPT".toList ++ ':' :: ("\"http://schemas.upnp.org/upnp/1/0/\"; ns=01").toList) = q :=
    fun q => parse_line_unknown q _ _ (by decide) (by decide) (by decide) (by decide)
      (by decide) (by decide) (by decide)
  have u9 : ∀ q, parse_field_line_full q ("01-NLS".toList ++ ':' :: "1".toList) = q :=
    fun q => parse_line_unknown q _ _ (by decide) (by decide) (by decide) (by decide)
      (by decide) (by decide) (by decide)
  have u10 : ∀ q, parse_field_line_full q ("BOOTID.UPNP.ORG".toList ++ ':' :: "1".toList) = q :=
    fun q => parse_line_unknown q _ _ (by decide) (by decide) (by decide) (by decide)
      (by decide) (by decide) (by decide)
  have u11 : ∀ q, parse_field_line_full q
      ("CONFIGID.UPNP.ORG".toList ++ ':' :: "1337".toList) = q :=
    fun q => parse_line_unknown q _ _ (by decide) (by decide) (by decide) (by decide)
      (by decide) (by decide) (by decide)
  have u12 : ∀ q, parse_field_line_full q ("NTS".toList ++ ':' :: "ssdp:alive".toList) = q :=
    fun q => parse_line_unknown q _ _ (by decide) (by decide) (by decide) (by decide)
      (by decide) (by decide) (by decide)
  rw [u1, u2, u8, u9, u10, u11, u12]
  refine ⟨by trivial, ?_, ?_, ?_, ?_, ?_, ?_⟩
  · simp only [parse_field_line_full_method]
  · rw [parse_line_proj_st _ ("DEV_TYPE".toList) _ (by decide) (by decide) (by decide),
      parse_line_proj_st _ ("SM_ID".toList) _ (by decide) (by decide) (by decide),
      parse_line_proj_st _ ("LOCATION".toList) _ (by decide) (by decide) (by decide),
      parse_line_proj_st _ ("USN".toList) _ (by decide) (by decide) (by decide),
      parse_line_set_st]
    by_cases h0 : hdr.st = []
    · rw [if_pos h0, h0]
      rfl
    · rw [if_neg h0]
  · rw [parse_line_proj_usn _ ("DEV_TYPE".toList) _ (by decide) (by decide) (by decide),
      parse_line_proj_usn _ ("SM_ID".toList) _ (by decide) (by decide) (by decide),
      parse_line_proj_usn _ ("LOCATION".toList) _ (by decide) (by decide) (by decide),
      parse_line_set_usn,
      parse_line_proj_usn _ ("ST".toList) _ (by decide) (by decide) (by decide)]
    by_cases h0 : hdr.usn = []
    · rw [if_pos h0, h0]
      rfl
    · rw [if_neg h0]
  · rw [parse_line_proj_location _ ("DEV_TYPE".toList) _ (by decide) (by decide) (by decide),
      parse_line_proj_location _ ("SM_ID".toList) _ (by decide) (by decide) (by decide),
      parse_line_set_location,
      parse_line_proj_location _ ("USN".toList) _ (by decide) (by decide) (by decide),
      parse_line_proj_location _ ("ST".toList) _ (by decide) (by decide) (by decide)]
    by_cases h0 : buildLocation hdr.location iface = []
    · rw [if_pos h0, h0]
      rfl
    · rw [if_neg h0]
  · rw [parse_line_proj_sm_id _ ("DEV_TYPE".toList) _ (by decide) (by decide) (by decide),
      parse_line_set_sm_id,
      parse_line_proj_sm_id _ ("LOCATION".toList) _ (by decide) (by decide) (by decide),
      parse_line_proj_sm_id _ ("USN".toList) _ (by decide) (by decide) (by decide),
      parse_line_proj_sm_id _ ("ST".toList) _ (by decide) (by decide) (by decide)]
    by_cases h0 : hdr.sm_id = []
    · rw [if_pos h0, h0]
      rfl
    · rw [if_neg h0]
  · rw [parse_line_set_dev_type,
      parse_line_proj_dev_type _ ("SM_ID".toList) _ (by decide) (by decide) (by decide),
      parse_line_proj_dev_type _ ("LOCATION".toList) _ (by decide) (by decide) (by decide),
      parse_line_proj_dev_type _ ("USN".toList) _ (by decide) (by decide) (by decide),
      parse_line_proj_dev_type _ ("ST".toList) _ (by decide) (by decide) (by decide)]
    by_cases h0 : hdr.device_type = []
    · rw [if_pos h0, h0]
      rfl
    · rw [if_neg h0]

/-- Example header configuration (no host override: LOCATION uses the
interface IP) used for the round-trip witness. -/
def exHeader : lssdp_header :=
  ⟨"urn:x".toList, "uuid:1".toList, "sm1".toList, "dev1".toList,
    ⟨[], 8080, "d.xml".toList⟩⟩

/-- Example interface for the round-trip witness. -/
def exIface : lssdp_interface := ⟨"eth0".toList, 192, 168, 0, 7⟩

set_option maxRecDepth 100000 in
/-- C1 witness: the round trip at a concrete clean configuration. -/
theorem c1_notify_roundtrip_witness :
    (lssdp_packet_parse (buildNotifyRendered exHeader 1900 exIface)
      (buildNotifyRendered exHeader 1900 exIface).length emptyPacket).1 = 0 ∧
    (lssdp_packet_parse (buildNotifyRendered exHeader 1900 exIface)
      (buildNotifyRendered exHeader 1900 exIface).length emptyPacket).2.method
        = "NOTIFY".toList ∧
    (lssdp_packet_parse (buildNotifyRendered exHeader 1900 exIface)
      (buildNotifyRendered exHeader 1900 exIface).length emptyPacket).2.st = exHeader.st ∧
    (lssdp_packet_parse (buildNotifyRendered exHeader 1900 exIface)
      (buildNotifyRendered exHeader 1900 exIface).length emptyPacket).2.usn = exHeader.usn ∧
    (lssdp_packet_parse (buildNotifyRendered exHeader 1900 exIface)
      (buildNotifyRendered exHeader 1900 exIface).length emptyPacket).2.location
        = buildLocation exHeader.location exIface ∧
    (lssdp_packet_parse (buildNotifyRendered exHeader 1900 exIface)
      (buildNotifyRendered exHeader 1900 exIface).length emptyPacket).2.sm_id
        = exHeader.sm_id ∧
    (lssdp_packet_parse (buildNotifyRendered exHeader 1900 exIface)
      (buildNotifyRendered exHeader 1900 exIface).length emptyPacket).2.device_type
        = exHeader.device_type :=
  c1_notify_roundtrip exHeader 1900 exIface (by decide) (by decide) (by decide) (by decide)
    (by decide) (by decide) (by decide) (by decide)

/-- Header configuration whose search target smuggles a CRLF and a forged
USN line into the message. -/
def cexHeader : lssdp_header :=
  ⟨("a\r\nUSN:evil").toList, ['u'], [], [], ⟨['h'], 0, []⟩⟩

set_option maxRecDepth 100000 in
/-- C1 counterexample: with the CRLF-injecting configuration the parse
succeeds but recovers `st = "a"`, not the configured search target, so the
unconditional round-trip claim is false. -/
theorem c1_counterexample :
    (lssdp_packet_parse (buildNotifyRendered cexHeader 1900 exIface)
      (buildNotifyRendered cexHeader 1900 exIface).length emptyPacket).1 = 0 ∧
    (lssdp_packet_parse (buildNotifyRendered cexHeader 1900 exIface)
      (buildNotifyRendered cexHeader 1900 exIface).length emptyPacket).2.st
        ≠ cexHeader.st := by
  refine ⟨by decide, by decide⟩
